import Mathlib

/-!
Shallow embedding of the pendulum-explorer simulation core
(`src/App.tsx`, `src/components/DataDisplay.tsx`, `src/constants.ts`,
`src/types.ts`) over the real numbers, together with theorems checking
the specification's claims about it.
-/

open Real

namespace Pendulum

/-- Source `src/constants.ts`: `export const GRAVITY = 9.8`. -/
def GRAVITY : ℝ := 9.8

/-- Source `src/constants.ts`: `export const DT = 0.016`. -/
def DT : ℝ := 0.016

/-- Source `src/types.ts`: `SimulationState` (theta, omega, alpha, time). -/
structure SimulationState where
  theta : ℝ
  omega : ℝ
  alpha : ℝ
  time : ℝ

/-- Source `src/types.ts`: `PhysicsParams` (mass, length, gravity, initialAngle in degrees). -/
structure PhysicsParams where
  mass : ℝ
  length : ℝ
  gravity : ℝ
  initialAngle : ℝ

/-- Source `src/types.ts`: `SimulationMode`. -/
inductive SimulationMode where
  | RUNNING
  | PAUSED
  | PAUSE_AT_BOTTOM
  | PAUSE_AT_TOP
  deriving DecidableEq, Repr

/-- The record returned by `evaluateDerivatives` inside `updatePhysics`
(`src/App.tsx` lines 86-91): `{dTheta, dOmega}`. -/
structure Derivatives where
  dTheta : ℝ
  dOmega : ℝ

/-- Source `src/App.tsx` lines 86-91: the local `evaluateDerivatives (t, th, om)`
closure of `updatePhysics`; it closes over `gravity` and `length`, takes an
unused time argument `t`, and returns
`{dTheta: om, dOmega: -(gravity/length) * sin th}`. -/
noncomputable def evaluateDerivatives (gravity length : ℝ) (_t th om : ℝ) : Derivatives :=
  { dTheta := om, dOmega := -(gravity / length) * Real.sin th }

/-- Source `src/App.tsx` lines 76-136: `updatePhysics(currentState, currentParams, dt)`,
one classical RK4 step of the pendulum ODE, with `alpha` recomputed from the
new position and `time` advanced by `dt`. -/
noncomputable def updatePhysics (currentState : SimulationState)
    (currentParams : PhysicsParams) (dt : ℝ) : SimulationState :=
  let theta := currentState.theta
  let omega := currentState.omega
  let gravity := currentParams.gravity
  let length := currentParams.length
  let k1 := evaluateDerivatives gravity length 0 theta omega
  let k2 := evaluateDerivatives gravity length (0 + dt * 0.5)
    (theta + k1.dTheta * dt * 0.5) (omega + k1.dOmega * dt * 0.5)
  let k3 := evaluateDerivatives gravity length (0 + dt * 0.5)
    (theta + k2.dTheta * dt * 0.5) (omega + k2.dOmega * dt * 0.5)
  let k4 := evaluateDerivatives gravity length (0 + dt)
    (theta + k3.dTheta * dt) (omega + k3.dOmega * dt)
  let newTheta := theta +
    (dt / 6.0) * (k1.dTheta + 2 * k2.dTheta + 2 * k3.dTheta + k4.dTheta)
  let newOmega := omega +
    (dt / 6.0) * (k1.dOmega + 2 * k2.dOmega + 2 * k3.dOmega + k4.dOmega)
  let newAlpha := -(gravity / length) * Real.sin newTheta
  { theta := newTheta
    omega := newOmega
    alpha := newAlpha
    time := currentState.time + dt }

/-- Source `src/App.tsx` lines 49-60: `initializeState` resets the physics state to
`{theta: initialAngle * π/180, omega: 0, alpha: 0, time: 0}`. -/
noncomputable def initializeState (params : PhysicsParams) : SimulationState :=
  { theta := params.initialAngle * (Real.pi / 180)
    omega := 0
    alpha := 0
    time := 0 }

/-- Source `src/components/DataDisplay.tsx` lines 66-74: the `for (let i = 0; i < 10; i++)`
AGM loop of `calculateExactPeriod`, written with the remaining iteration count as
fuel.  Each pass computes `nextA = (a+b)/2` and `nextB = sqrt(a*b)`, breaks
(returning the current `a`) when `|a - b| < 1e-9`, and otherwise assigns and
continues. -/
noncomputable def agmLoop : ℕ → ℝ → ℝ → ℝ
  | 0, a, _ => a
  | n + 1, a, b =>
    if |a - b| < 1e-9 then a else agmLoop n (0.5 * (a + b)) (Real.sqrt (a * b))

/-- Source `src/components/DataDisplay.tsx` lines 50-79: `calculateExactPeriod(length,
gravity, maxAngleDeg)`.  Returns `2π·sqrt(length/gravity)` directly when
`maxAngleDeg === 0`, otherwise divides it by the result of the 10-iteration AGM
loop started from `a = 1`, `b = cos(theta0/2)` with `theta0 = maxAngleDeg·π/180`. -/
noncomputable def calculateExactPeriod (length gravity maxAngleDeg : ℝ) : ℝ :=
  if maxAngleDeg = 0 then 2 * Real.pi * Real.sqrt (length / gravity)
  else
    let theta0 := maxAngleDeg * (Real.pi / 180)
    (2 * Real.pi * Real.sqrt (length / gravity)) / agmLoop 10 1 (Real.cos (theta0 / 2))

/-- Source `src/components/DataDisplay.tsx` lines 81-110: the derived display
quantities of the `DataDisplay` component, in order: exact period, tangential
acceleration `|GRAVITY·sin θ|`, radial acceleration `L·ω²`, total acceleration,
linear speed `|ω·L|`, tension `m·(GRAVITY·cos θ + a_n)`, and gravity force
`m·GRAVITY`.  All gravity occurrences use the module constant `GRAVITY`. -/
noncomputable def displayData (state : SimulationState) (params : PhysicsParams) :
    ℝ × ℝ × ℝ × ℝ × ℝ × ℝ × ℝ :=
  let period := calculateExactPeriod params.length GRAVITY params.initialAngle
  let a_t := |GRAVITY * Real.sin state.theta|
  let a_n := params.length * (state.omega * state.omega)
  let a_total := Real.sqrt (a_t * a_t + a_n * a_n)
  let v := |state.omega * params.length|
  let tension := params.mass * (GRAVITY * Real.cos state.theta + a_n)
  let gravityForce := params.mass * GRAVITY
  (period, a_t, a_n, a_total, v, tension, gravityForce)

/-- Source `src/App.tsx` lines 164-167: the `PAUSE_AT_BOTTOM` zero-crossing test on a
pre-step state `prev` and post-step state `next`:
`(prev.theta > 0 && next.theta <= 0) || (prev.theta < 0 && next.theta >= 0)`. -/
def bottomCross (prev next : SimulationState) : Prop :=
  (prev.theta > 0 ∧ next.theta ≤ 0) ∨ (prev.theta < 0 ∧ next.theta ≥ 0)

/-- Source `src/App.tsx` lines 176-180: the `PAUSE_AT_TOP` turning-point test:
only when `prev.theta > 0.1`, detect
`(prev.omega > 0 && next.omega <= 0) || (prev.omega < 0 && next.omega >= 0)`. -/
def topTurn (prev next : SimulationState) : Prop :=
  prev.theta > 0.1 ∧
    ((prev.omega > 0 ∧ next.omega ≤ 0) ∨ (prev.omega < 0 ∧ next.omega ≥ 0))

open Classical in
/-- Source `src/App.tsx` lines 149-187: the fixed-step drain loop
`while (accumulatorRef.current >= DT && active)` of `animate`, written with a
fuel argument (the caller passes enough fuel for the loop to run to
completion).  `mode` is the React state captured by the frame's closure and is
constant throughout the loop; a fired stop condition sets the next frame's mode
to `PAUSED` (via `setMode`), mutates the published state (`theta = 0` at the
bottom, `omega = 0` at the top) and clears `active`, ending the drain.
Returns (accumulator, state, mode for the next frame). -/
noncomputable def drainLoop (mode : SimulationMode) (params : PhysicsParams) :
    ℕ → ℝ → SimulationState → ℝ × SimulationState × SimulationMode
  | 0, acc, s => (acc, s, mode)
  | n + 1, acc, s =>
    if DT ≤ acc then
      let nextState := updatePhysics s params DT
      let acc1 := acc - DT
      if mode = SimulationMode.PAUSE_AT_BOTTOM ∧ bottomCross s nextState then
        (acc1, { nextState with theta := 0 }, SimulationMode.PAUSED)
      else if mode = SimulationMode.PAUSE_AT_TOP ∧ topTurn s nextState then
        (acc1, { nextState with omega := 0 }, SimulationMode.PAUSED)
      else
        drainLoop mode params n acc1 nextState
    else (acc, s, mode)

/-- Source `src/App.tsx` line 142: the frame delta in seconds,
`Math.min((time - lastTime) / 1000, 0.1)`. -/
noncomputable def frameTime (time lastTime : ℝ) : ℝ :=
  min ((time - lastTime) / 1000) 0.1

/-- Source `src/App.tsx` lines 138-203: one call of the `animate` frame callback.
Inputs are the captured `mode`, `params`, the current physics state
(`stateRef`), the accumulator, the previous timestamp (`lastTimeRef`, `none`
on the first call) and the frame timestamp in milliseconds.  Returns the new
(state, accumulator, lastTime, mode).  The drain loop is given fuel
`⌈acc/DT⌉ + 1`, which is proven sufficient below. -/
noncomputable def animate (mode : SimulationMode) (params : PhysicsParams)
    (s : SimulationState) (acc : ℝ) (lastTime : Option ℝ) (time : ℝ) :
    SimulationState × ℝ × Option ℝ × SimulationMode :=
  match lastTime with
  | none => (s, acc, some time, mode)
  | some t0 =>
    let acc1 := acc + frameTime time t0
    if mode = SimulationMode.PAUSED then
      (s, 0, some time, mode)
    else
      let r := drainLoop mode params (Nat.ceil (acc1 / DT) + 1) acc1 s
      (r.2.1, r.1, some time, r.2.2)

/-- The mutable per-frame loop data of `src/App.tsx`: the published simulation
state, the time accumulator, the last timestamp and the simulation mode. -/
structure FrameConfig where
  state : SimulationState
  acc : ℝ
  lastTime : Option ℝ
  mode : SimulationMode

/-- One `animate` call acting on a `FrameConfig`. -/
noncomputable def animateStep (params : PhysicsParams) (c : FrameConfig) (t : ℝ) :
    FrameConfig :=
  let r := animate c.mode params c.state c.acc c.lastTime t
  ⟨r.1, r.2.1, r.2.2.1, r.2.2.2⟩

/-- A sequence of `animate` calls at the given timestamps. -/
noncomputable def animateRun (params : PhysicsParams) (c : FrameConfig)
    (ts : List ℝ) : FrameConfig :=
  ts.foldl (animateStep params) c

/-- Source `src/App.tsx` lines 13-18: `INITIAL_PARAMS`. -/
noncomputable def INITIAL_PARAMS : PhysicsParams :=
  { mass := 2.0, length := 2.0, gravity := GRAVITY, initialAngle := 30 }

/-- Source `src/App.tsx` lines 20-25: `INITIAL_STATE`. -/
noncomputable def INITIAL_STATE : SimulationState :=
  { theta := INITIAL_PARAMS.initialAngle * (Real.pi / 180)
    omega := 0, alpha := 0, time := 0 }

/-- Modelled from the spec text of claim C1 (not from the source): the
classical RK4 update of the system `dθ/dt = ω`, `dω/dt = −(g/L)·sin θ`, with
samples `k1` at `(θ, ω)`, `k2` at `(θ + k1.dθ·dt/2, ω + k1.dω·dt/2)`, `k3` at
`(θ + k2.dθ·dt/2, ω + k2.dω·dt/2)`, `k4` at `(θ + k3.dθ·dt, ω + k3.dω·dt)`,
combination `θ' = θ + dt/6·(k1.dθ + 2·k2.dθ + 2·k3.dθ + k4.dθ)` and likewise
for `ω'`, returned alpha `−(g/L)·sin θ'` and returned time `time + dt`. -/
noncomputable def rk4SpecStep (s : SimulationState) (p : PhysicsParams) (dt : ℝ) :
    SimulationState :=
  let deriv : ℝ → ℝ → Derivatives := fun th om =>
    { dTheta := om, dOmega := -(p.gravity / p.length) * Real.sin th }
  let k1 := deriv s.theta s.omega
  let k2 := deriv (s.theta + k1.dTheta * dt / 2) (s.omega + k1.dOmega * dt / 2)
  let k3 := deriv (s.theta + k2.dTheta * dt / 2) (s.omega + k2.dOmega * dt / 2)
  let k4 := deriv (s.theta + k3.dTheta * dt) (s.omega + k3.dOmega * dt)
  let newTheta :=
    s.theta + dt / 6 * (k1.dTheta + 2 * k2.dTheta + 2 * k3.dTheta + k4.dTheta)
  let newOmega :=
    s.omega + dt / 6 * (k1.dOmega + 2 * k2.dOmega + 2 * k3.dOmega + k4.dOmega)
  { theta := newTheta
    omega := newOmega
    alpha := -(p.gravity / p.length) * Real.sin newTheta
    time := s.time + dt }

/-- Claim C1: For every input state, parameters with positive length and step
size `dt`, `updatePhysics` returns exactly the classical RK4 update of
`dθ/dt = ω`, `dω/dt = −(g/L)·sin θ` described by the spec, its returned
`alpha` equals `−(g/L)·sin θ'` for the returned `θ'`, and its returned time is
`time + dt`. -/
theorem C1_updatePhysics_is_classical_rk4 (s : SimulationState)
    (p : PhysicsParams) (dt : ℝ) (h : 0 < p.length) :
    updatePhysics s p dt = rk4SpecStep s p dt ∧
    (updatePhysics s p dt).alpha =
      -(p.gravity / p.length) * Real.sin ((updatePhysics s p dt).theta) ∧
    (updatePhysics s p dt).time = s.time + dt := by
  refine ⟨?_, ?_, ?_⟩
  · simp only [updatePhysics, rk4SpecStep, evaluateDerivatives,
      SimulationState.mk.injEq]
    refine ⟨?_, ?_, ?_, trivial⟩ <;> ring_nf
  · simp only [updatePhysics, evaluateDerivatives]
  · simp only [updatePhysics, evaluateDerivatives]

/-- Witness for C1 at the repository's initial parameters and state. -/
theorem C1_updatePhysics_is_classical_rk4_witness :
    updatePhysics INITIAL_STATE INITIAL_PARAMS DT
        = rk4SpecStep INITIAL_STATE INITIAL_PARAMS DT ∧
    (updatePhysics INITIAL_STATE INITIAL_PARAMS DT).alpha =
      -(INITIAL_PARAMS.gravity / INITIAL_PARAMS.length) *
        Real.sin ((updatePhysics INITIAL_STATE INITIAL_PARAMS DT).theta) ∧
    (updatePhysics INITIAL_STATE INITIAL_PARAMS DT).time = INITIAL_STATE.time + DT :=
  C1_updatePhysics_is_classical_rk4 INITIAL_STATE INITIAL_PARAMS DT
    (by norm_num [INITIAL_PARAMS])

/-- Claim C10: The derived display quantities depend on the state and on the
mass, length and initial-angle parameters only: two parameter records that
agree on those three fields (and hence may differ arbitrarily in `gravity`)
produce identical display data, because every gravity occurrence in
`DataDisplay` uses the module constant `GRAVITY = 9.8`. -/
theorem C10_display_ignores_gravity_param (s : SimulationState)
    (p1 p2 : PhysicsParams) (hm : p1.mass = p2.mass) (hl : p1.length = p2.length)
    (ha : p1.initialAngle = p2.initialAngle) :
    displayData s p1 = displayData s p2 := by
  simp only [displayData, hm, hl, ha]

/-- Witness for C10: the initial parameters and the same record with gravity
replaced by the Moon's `1.62` give identical display data. -/
theorem C10_display_ignores_gravity_param_witness :
    displayData INITIAL_STATE INITIAL_PARAMS
      = displayData INITIAL_STATE
          { mass := 2.0, length := 2.0, gravity := 1.62, initialAngle := 30 } :=
  C10_display_ignores_gravity_param INITIAL_STATE _ _ rfl rfl rfl

/-- Claim C5, amended: `alpha` is consistent with the current `theta`
(`alpha = −(g/L)·sin θ`) in the direct output of every integration step, and
the re-initialized state is exactly
`{theta: initialAngle·π/180, omega: 0, alpha: 0, time: 0}`.  The invariant
does NOT hold in every published `AngularState`: the re-initialized state
hard-codes `alpha = 0` whatever its `theta`, and the `PAUSE_AT_BOTTOM` snap
publishes `theta = 0` while keeping the pre-snap
`alpha = −(g/L)·sin θ'` unchanged (third conjunct), so both violate the
invariant whenever the respective sine is nonzero; see the counterexample. -/
theorem C5_alpha_consistent_after_step (s : SimulationState) (p : PhysicsParams)
    (dt : ℝ) :
    (updatePhysics s p dt).alpha =
      -(p.gravity / p.length) * Real.sin ((updatePhysics s p dt).theta) ∧
    initializeState p =
      { theta := p.initialAngle * (Real.pi / 180)
        omega := 0, alpha := 0, time := 0 } ∧
    ({ updatePhysics s p dt with theta := 0 } : SimulationState).alpha =
      -(p.gravity / p.length) * Real.sin ((updatePhysics s p dt).theta) :=
  ⟨by simp only [updatePhysics, evaluateDerivatives], rfl,
   by simp only [updatePhysics, evaluateDerivatives]⟩

/-- Modelled from the spec text of claim C2 (not from the source): one AGM
update, `a ↦ (a + b)/2`, `b ↦ sqrt(a·b)`. -/
noncomputable def agmStep (p : ℝ × ℝ) : ℝ × ℝ :=
  ((p.1 + p.2) / 2, Real.sqrt (p.1 * p.2))

/-- The break-style AGM loop equals the spec's description: its result is the
`a`-component of the iterated AGM map at the first index whose gap is below
the tolerance, capped at the fuel. -/
lemma agmLoop_eq_iterate : ∀ (n : ℕ) (a b : ℝ), ∃ k ≤ n,
    agmLoop n a b = (agmStep^[k] (a, b)).1 ∧
    (∀ i < k, 1e-9 ≤ |(agmStep^[i] (a, b)).1 - (agmStep^[i] (a, b)).2|) ∧
    (k < n → |(agmStep^[k] (a, b)).1 - (agmStep^[k] (a, b)).2| < 1e-9) := by
  intro n
  induction n with
  | zero =>
    intro a b
    exact ⟨0, le_refl 0, rfl, fun i hi => absurd hi (Nat.not_lt_zero i),
      fun h => absurd h (lt_irrefl 0)⟩
  | succ n ih =>
    intro a b
    by_cases hgap : |a - b| < 1e-9
    · refine ⟨0, Nat.zero_le _, ?_, fun i hi => absurd hi (Nat.not_lt_zero i),
        fun _ => ?_⟩
      · simp only [agmLoop, if_pos hgap, Function.iterate_zero_apply]
      · simpa using hgap
    · obtain ⟨k, hk, heq, hbefore, hat⟩ := ih ((a + b) / 2) (Real.sqrt (a * b))
      have hstep : agmStep (a, b) = ((a + b) / 2, Real.sqrt (a * b)) := rfl
      refine ⟨k + 1, Nat.succ_le_succ hk, ?_, ?_, ?_⟩
      · have : agmLoop (n + 1) a b = agmLoop n (0.5 * (a + b)) (Real.sqrt (a * b)) := by
          simp only [agmLoop, if_neg hgap]
        rw [this]
        have h05 : (0.5 : ℝ) * (a + b) = (a + b) / 2 := by ring
        rw [h05, heq, Function.iterate_succ_apply, hstep]
      · intro i hi
        match i with
        | 0 => simpa using not_lt.mp hgap
        | j + 1 =>
          rw [Function.iterate_succ_apply, hstep]
          exact hbefore j (Nat.lt_of_succ_lt_succ hi)
      · intro h
        rw [Function.iterate_succ_apply, hstep]
        exact hat (Nat.lt_of_succ_lt_succ h)

/-- Claim C2: For positive length and gravity, `calculateExactPeriod` returns
`2π·sqrt(L/g)` at `maxAngleDeg = 0`; otherwise it returns
`2π·sqrt(L/g) / a_k` where `a_k` is the AGM iterate starting from `a₀ = 1`,
`b₀ = cos(θ0/2)` (with `θ0 = maxAngleDeg·π/180`) taken at the first index
whose gap `|a_i − b_i|` drops below `1e-9`, capped at 10 iterations — in
particular the iteration terminates within the fixed cap (`k ≤ 10`). -/
theorem C2_calculateExactPeriod_agm (L g maxAngleDeg : ℝ)
    (hL : 0 < L) (hg : 0 < g) :
    (maxAngleDeg = 0 →
      calculateExactPeriod L g maxAngleDeg = 2 * Real.pi * Real.sqrt (L / g)) ∧
    (maxAngleDeg ≠ 0 → ∃ k ≤ 10,
      calculateExactPeriod L g maxAngleDeg =
        2 * Real.pi * Real.sqrt (L / g) /
          (agmStep^[k] (1, Real.cos (maxAngleDeg * (Real.pi / 180) / 2))).1 ∧
      (∀ i < k, 1e-9 ≤
        |(agmStep^[i] (1, Real.cos (maxAngleDeg * (Real.pi / 180) / 2))).1 -
          (agmStep^[i] (1, Real.cos (maxAngleDeg * (Real.pi / 180) / 2))).2|) ∧
      (k < 10 →
        |(agmStep^[k] (1, Real.cos (maxAngleDeg * (Real.pi / 180) / 2))).1 -
          (agmStep^[k] (1, Real.cos (maxAngleDeg * (Real.pi / 180) / 2))).2| < 1e-9)) := by
  constructor
  · intro h0
    simp only [calculateExactPeriod, if_pos h0]
  · intro hne
    obtain ⟨k, hk, heq, hbefore, hat⟩ :=
      agmLoop_eq_iterate 10 1 (Real.cos (maxAngleDeg * (Real.pi / 180) / 2))
    exact ⟨k, hk, by simp only [calculateExactPeriod, if_neg hne]; rw [heq],
      hbefore, hat⟩

/-- Witness for C2 at the repository's initial configuration
(`L = 2`, `g = 9.8`, `maxAngleDeg = 30`). -/
theorem C2_calculateExactPeriod_agm_witness :
    ((30 : ℝ) = 0 →
      calculateExactPeriod 2 9.8 30 = 2 * Real.pi * Real.sqrt (2 / 9.8)) ∧
    ((30 : ℝ) ≠ 0 → ∃ k ≤ 10,
      calculateExactPeriod 2 9.8 30 =
        2 * Real.pi * Real.sqrt (2 / 9.8) /
          (agmStep^[k] (1, Real.cos (30 * (Real.pi / 180) / 2))).1 ∧
      (∀ i < k, 1e-9 ≤
        |(agmStep^[i] (1, Real.cos (30 * (Real.pi / 180) / 2))).1 -
          (agmStep^[i] (1, Real.cos (30 * (Real.pi / 180) / 2))).2|) ∧
      (k < 10 →
        |(agmStep^[k] (1, Real.cos (30 * (Real.pi / 180) / 2))).1 -
          (agmStep^[k] (1, Real.cos (30 * (Real.pi / 180) / 2))).2| < 1e-9)) :=
  C2_calculateExactPeriod_agm 2 9.8 30 (by norm_num) (by norm_num)

lemma DT_pos : (0 : ℝ) < DT := by norm_num [DT]

/-- First frame call: nothing is accumulated or integrated, only the
timestamp is recorded. -/
lemma animate_none (m : SimulationMode) (p : PhysicsParams) (s : SimulationState)
    (acc t : ℝ) : animate m p s acc none t = (s, acc, some t, m) := rfl

/-- Paused frame call: the accumulator is discarded and the state untouched. -/
lemma animate_paused (p : PhysicsParams) (s : SimulationState) (acc t0 t : ℝ) :
    animate SimulationMode.PAUSED p s acc (some t0) t =
      (s, 0, some t, SimulationMode.PAUSED) := by
  simp [animate]

/-- Non-paused frame call: accumulate the frame delta, then drain. -/
lemma animate_some (m : SimulationMode) (p : PhysicsParams) (s : SimulationState)
    (acc t0 t : ℝ) (hm : m ≠ SimulationMode.PAUSED) :
    animate m p s acc (some t0) t =
      ((drainLoop m p (Nat.ceil ((acc + frameTime t t0) / DT) + 1)
          (acc + frameTime t t0) s).2.1,
       (drainLoop m p (Nat.ceil ((acc + frameTime t t0) / DT) + 1)
          (acc + frameTime t t0) s).1,
       some t,
       (drainLoop m p (Nat.ceil ((acc + frameTime t t0) / DT) + 1)
          (acc + frameTime t t0) s).2.2) := by
  simp only [animate, if_neg hm]

/-- Drain-loop unfolding: accumulator below the fixed step, no iteration. -/
lemma drainLoop_low (m : SimulationMode) (p : PhysicsParams) (n : ℕ)
    (acc : ℝ) (s : SimulationState) (hacc : ¬ DT ≤ acc) :
    drainLoop m p (n + 1) acc s = (acc, s, m) := by
  simp only [drainLoop, if_neg hacc]

/-- Drain-loop unfolding: a `PAUSE_AT_BOTTOM` step whose zero-crossing test
fires pauses, snaps `theta` to 0 and ends the drain. -/
lemma drainLoop_bottom_stop (p : PhysicsParams) (n : ℕ) (acc : ℝ)
    (s : SimulationState) (hacc : DT ≤ acc)
    (hcross : bottomCross s (updatePhysics s p DT)) :
    drainLoop SimulationMode.PAUSE_AT_BOTTOM p (n + 1) acc s =
      (acc - DT, { updatePhysics s p DT with theta := 0 },
        SimulationMode.PAUSED) := by
  simp only [drainLoop, if_pos hacc]
  rw [if_pos ⟨rfl, hcross⟩]

/-- Drain-loop unfolding: a `PAUSE_AT_BOTTOM` step without a zero crossing
keeps the mode and the freshly integrated state and keeps draining. -/
lemma drainLoop_bottom_go (p : PhysicsParams) (n : ℕ) (acc : ℝ)
    (s : SimulationState) (hacc : DT ≤ acc)
    (hcross : ¬ bottomCross s (updatePhysics s p DT)) :
    drainLoop SimulationMode.PAUSE_AT_BOTTOM p (n + 1) acc s =
      drainLoop SimulationMode.PAUSE_AT_BOTTOM p n (acc - DT)
        (updatePhysics s p DT) := by
  simp only [drainLoop, if_pos hacc]
  rw [if_neg (fun h => hcross h.2), if_neg (fun h => by cases h.1)]

/-- Drain-loop unfolding: a `PAUSE_AT_TOP` step whose turning-point test fires
pauses, snaps `omega` to 0 and ends the drain. -/
lemma drainLoop_top_stop (p : PhysicsParams) (n : ℕ) (acc : ℝ)
    (s : SimulationState) (hacc : DT ≤ acc)
    (hturn : topTurn s (updatePhysics s p DT)) :
    drainLoop SimulationMode.PAUSE_AT_TOP p (n + 1) acc s =
      (acc - DT, { updatePhysics s p DT with omega := 0 },
        SimulationMode.PAUSED) := by
  simp only [drainLoop, if_pos hacc]
  rw [if_neg (fun h => by cases h.1), if_pos ⟨rfl, hturn⟩]

/-- Drain-loop unfolding: a `PAUSE_AT_TOP` step without a detected turning
point keeps the mode and keeps draining. -/
lemma drainLoop_top_go (p : PhysicsParams) (n : ℕ) (acc : ℝ)
    (s : SimulationState) (hacc : DT ≤ acc)
    (hturn : ¬ topTurn s (updatePhysics s p DT)) :
    drainLoop SimulationMode.PAUSE_AT_TOP p (n + 1) acc s =
      drainLoop SimulationMode.PAUSE_AT_TOP p n (acc - DT)
        (updatePhysics s p DT) := by
  simp only [drainLoop, if_pos hacc]
  rw [if_neg (fun h => by cases h.1), if_neg (fun h => hturn h.2)]

/-- Claim C3, amended: On every frame call after the first in a non-paused
mode, the frame delta added to the time accumulator equals
`min((timestamp − lastTimestamp)/1000, 0.1)`: it is clamped above by
`maxFrameDelta = 0.1 s` but not below by 0, so a negative wall-clock delta is
added as a negative amount.  (Stated for a frame that performs no integration
steps, so the accumulator is observable unchanged by the drain.) -/
theorem C3_frame_delta_min_only (m : SimulationMode) (p : PhysicsParams)
    (s : SimulationState) (acc t0 t : ℝ) (hm : m ≠ SimulationMode.PAUSED)
    (hlow : acc + min ((t - t0) / 1000) 0.1 < DT) :
    (animate m p s acc (some t0) t).2.1 = acc + min ((t - t0) / 1000) 0.1 ∧
    frameTime t t0 ≤ 0.1 := by
  have hft : frameTime t t0 = min ((t - t0) / 1000) 0.1 := rfl
  refine ⟨?_, min_le_right _ _⟩
  rw [animate_some m p s acc t0 t hm, hft,
    drainLoop_low _ _ _ _ _ (not_le.mpr hlow)]

/-- Witness for C3 (amended): a 5 ms frame in `RUNNING` mode adds exactly
0.005 s. -/
theorem C3_frame_delta_min_only_witness :
    (animate SimulationMode.RUNNING INITIAL_PARAMS INITIAL_STATE 0
        (some 0) 5).2.1 = 0 + min ((5 - 0) / 1000) 0.1 ∧
    frameTime 5 0 ≤ 0.1 :=
  C3_frame_delta_min_only SimulationMode.RUNNING INITIAL_PARAMS INITIAL_STATE
    0 0 5 (by decide) (by norm_num [DT])

/-- Counterexample to C3 as stated: a frame whose timestamp (0 ms) precedes
the recorded last timestamp (1000 ms) adds `min(−1, 0.1) = −1` to the
accumulator, not `clamp(−1, 0, 0.1) = 0`: the delta is not clamped below at
0, and the negative amount is accumulated. -/
theorem C3_frame_delta_counterexample :
    (animate SimulationMode.RUNNING INITIAL_PARAMS INITIAL_STATE 0
        (some 1000) 0).2.1 = -1 ∧
    ((-1 : ℝ) ≠ max 0 (min ((0 - 1000) / 1000) 0.1)) := by
  constructor
  · have hft : frameTime 0 1000 = -1 := by
      norm_num [frameTime]
    rw [animate_some _ _ _ _ _ _ (by decide), hft,
      drainLoop_low _ _ _ _ _ (by norm_num [DT])]
    norm_num
  · rw [min_eq_left (by norm_num), max_eq_left (by norm_num)]
    norm_num

/-- One paused `animate` call on a frame configuration whose accumulator is 0
whenever no timestamp has been recorded: the state and mode are preserved and
the accumulator ends at 0. -/
lemma animateStep_paused (p : PhysicsParams) (c : FrameConfig) (t : ℝ)
    (hmode : c.mode = SimulationMode.PAUSED)
    (hacc : c.lastTime = none → c.acc = 0) :
    animateStep p c t = ⟨c.state, 0, some t, SimulationMode.PAUSED⟩ := by
  cases hlt : c.lastTime with
  | none =>
    simp only [animateStep, hlt, hmode, animate_none, hacc hlt]
  | some t0 =>
    simp only [animateStep, hlt, hmode, animate_paused]

/-- A paused run preserves the state and mode, and ends with a zero
accumulator as soon as at least one frame has been processed. -/
lemma animateRun_paused (p : PhysicsParams) :
    ∀ (ts : List ℝ) (c : FrameConfig), c.mode = SimulationMode.PAUSED →
      (c.lastTime = none → c.acc = 0) →
      (animateRun p c ts).mode = SimulationMode.PAUSED ∧
      (animateRun p c ts).state = c.state ∧
      ((animateRun p c ts).lastTime = none → (animateRun p c ts).acc = 0) ∧
      (ts ≠ [] → (animateRun p c ts).acc = 0) := by
  intro ts
  induction ts with
  | nil =>
    intro c hmode hacc
    exact ⟨hmode, rfl, hacc, fun h => absurd rfl h⟩
  | cons t ts ih =>
    intro c hmode hacc
    have hstep := animateStep_paused p c t hmode hacc
    have hrun : animateRun p c (t :: ts) =
        animateRun p (animateStep p c t) ts := rfl
    obtain ⟨h1, h2, h3, h4⟩ := ih (animateStep p c t) (by rw [hstep]) (by
      rw [hstep]; intro h; cases h)
    refine ⟨by rw [hrun]; exact h1, by rw [hrun, h2, hstep], by rw [hrun]; exact h3, ?_⟩
    intro _
    rw [hrun]
    cases ts with
    | nil => rw [hstep]; rfl
    | cons t2 ts2 => exact h4 (by simp)

/-- Claim C8: While the mode is `PAUSED`, every sequence of frame calls (at
arbitrary wall-clock timestamps) leaves `theta`, `omega` and `time` of the
published state unchanged, keeps the mode `PAUSED`, and leaves the time
accumulator at 0 at the end of every call; no integration step is performed.
(The accumulator hypothesis holds for every reachable paused configuration:
whenever `lastTime` has been cleared, the accumulator was cleared with it.) -/
theorem C8_pause_idempotent (p : PhysicsParams) (s : SimulationState)
    (acc : ℝ) (lastTime : Option ℝ) (ts : List ℝ)
    (hacc : lastTime = none → acc = 0) (hts : ts ≠ []) :
    (animateRun p ⟨s, acc, lastTime, SimulationMode.PAUSED⟩ ts).state.theta
        = s.theta ∧
    (animateRun p ⟨s, acc, lastTime, SimulationMode.PAUSED⟩ ts).state.omega
        = s.omega ∧
    (animateRun p ⟨s, acc, lastTime, SimulationMode.PAUSED⟩ ts).state.time
        = s.time ∧
    (animateRun p ⟨s, acc, lastTime, SimulationMode.PAUSED⟩ ts).acc = 0 ∧
    (animateRun p ⟨s, acc, lastTime, SimulationMode.PAUSED⟩ ts).mode
        = SimulationMode.PAUSED := by
  obtain ⟨h1, h2, _, h4⟩ :=
    animateRun_paused p ts ⟨s, acc, lastTime, SimulationMode.PAUSED⟩ rfl hacc
  exact ⟨by rw [h2], by rw [h2], by rw [h2], h4 hts, h1⟩

/-- Witness for C8: three paused frames at timestamps 5, 700 and 100000 ms
starting from the initial configuration. -/
theorem C8_pause_idempotent_witness :
    (animateRun INITIAL_PARAMS
        ⟨INITIAL_STATE, 0, none, SimulationMode.PAUSED⟩
        [5, 700, 100000]).state.theta = INITIAL_STATE.theta ∧
    (animateRun INITIAL_PARAMS
        ⟨INITIAL_STATE, 0, none, SimulationMode.PAUSED⟩
        [5, 700, 100000]).state.omega = INITIAL_STATE.omega ∧
    (animateRun INITIAL_PARAMS
        ⟨INITIAL_STATE, 0, none, SimulationMode.PAUSED⟩
        [5, 700, 100000]).state.time = INITIAL_STATE.time ∧
    (animateRun INITIAL_PARAMS
        ⟨INITIAL_STATE, 0, none, SimulationMode.PAUSED⟩
        [5, 700, 100000]).acc = 0 ∧
    (animateRun INITIAL_PARAMS
        ⟨INITIAL_STATE, 0, none, SimulationMode.PAUSED⟩
        [5, 700, 100000]).mode = SimulationMode.PAUSED :=
  C8_pause_idempotent INITIAL_PARAMS INITIAL_STATE 0 none [5, 700, 100000]
    (fun _ => rfl) (by simp)

/-- Closed form of the `theta` component of one RK4 step: the four stage
angular velocities combine to `θ + dt·ω` minus a weighted sum of the three
distinct sine evaluations. -/
lemma updatePhysics_theta (s : SimulationState) (p : PhysicsParams) (dt : ℝ) :
    (updatePhysics s p dt).theta =
      s.theta + dt * s.omega -
        p.gravity / p.length * dt ^ 2 / 6 *
          (Real.sin s.theta +
           Real.sin (s.theta + s.omega * dt * 0.5) +
           Real.sin (s.theta +
             (s.omega + -(p.gravity / p.length) * Real.sin s.theta * dt * 0.5) *
               dt * 0.5)) := by
  simp only [updatePhysics, evaluateDerivatives]
  ring_nf

/-- Closed form of the `omega` component of one RK4 step. -/
lemma updatePhysics_omega (s : SimulationState) (p : PhysicsParams) (dt : ℝ) :
    (updatePhysics s p dt).omega =
      s.omega -
        p.gravity / p.length * dt / 6 *
          (Real.sin s.theta +
           2 * Real.sin (s.theta + s.omega * dt * 0.5) +
           2 * Real.sin (s.theta +
             (s.omega + -(p.gravity / p.length) * Real.sin s.theta * dt * 0.5) *
               dt * 0.5) +
           Real.sin (s.theta +
             (s.omega + -(p.gravity / p.length) *
               Real.sin (s.theta + s.omega * dt * 0.5) * dt * 0.5) * dt)) := by
  simp only [updatePhysics, evaluateDerivatives]
  ring_nf

/-- One RK4 step moves `theta` by at most `(g/L)·dt²/2` away from the Euler
prediction `θ + dt·ω`. -/
lemma updatePhysics_theta_close (s : SimulationState) (p : PhysicsParams)
    (dt : ℝ) (hG : 0 ≤ p.gravity / p.length) (hdt : 0 ≤ dt) :
    |(updatePhysics s p dt).theta - (s.theta + dt * s.omega)| ≤
      p.gravity / p.length * dt ^ 2 / 2 := by
  have h1 := Real.abs_sin_le_one s.theta
  have h2 := Real.abs_sin_le_one (s.theta + s.omega * dt * 0.5)
  have h3 := Real.abs_sin_le_one (s.theta +
    (s.omega + -(p.gravity / p.length) * Real.sin s.theta * dt * 0.5) * dt * 0.5)
  have hc : (0 : ℝ) ≤ p.gravity / p.length * dt ^ 2 / 6 := by positivity
  have hrw : (updatePhysics s p dt).theta - (s.theta + dt * s.omega) =
      -(p.gravity / p.length * dt ^ 2 / 6 *
        (Real.sin s.theta +
         Real.sin (s.theta + s.omega * dt * 0.5) +
         Real.sin (s.theta +
           (s.omega + -(p.gravity / p.length) * Real.sin s.theta * dt * 0.5) *
             dt * 0.5))) := by
    rw [updatePhysics_theta]
    ring
  rw [hrw, abs_neg, abs_mul, abs_of_nonneg hc]
  have hsum : |Real.sin s.theta +
      Real.sin (s.theta + s.omega * dt * 0.5) +
      Real.sin (s.theta +
        (s.omega + -(p.gravity / p.length) * Real.sin s.theta * dt * 0.5) *
          dt * 0.5)| ≤ 3 := by
    calc |Real.sin s.theta +
        Real.sin (s.theta + s.omega * dt * 0.5) +
        Real.sin (s.theta +
          (s.omega + -(p.gravity / p.length) * Real.sin s.theta * dt * 0.5) *
            dt * 0.5)|
        ≤ |Real.sin s.theta + Real.sin (s.theta + s.omega * dt * 0.5)| +
            |Real.sin (s.theta +
              (s.omega + -(p.gravity / p.length) * Real.sin s.theta * dt * 0.5) *
                dt * 0.5)| := abs_add _ _
      _ ≤ |Real.sin s.theta| + |Real.sin (s.theta + s.omega * dt * 0.5)| +
            |Real.sin (s.theta +
              (s.omega + -(p.gravity / p.length) * Real.sin s.theta * dt * 0.5) *
                dt * 0.5)| := by
          have := abs_add (Real.sin s.theta)
            (Real.sin (s.theta + s.omega * dt * 0.5))
          linarith
      _ ≤ 3 := by linarith
  calc p.gravity / p.length * dt ^ 2 / 6 * |Real.sin s.theta +
        Real.sin (s.theta + s.omega * dt * 0.5) +
        Real.sin (s.theta +
          (s.omega + -(p.gravity / p.length) * Real.sin s.theta * dt * 0.5) *
            dt * 0.5)|
      ≤ p.gravity / p.length * dt ^ 2 / 6 * 3 :=
        mul_le_mul_of_nonneg_left hsum hc
    _ = p.gravity / p.length * dt ^ 2 / 2 := by ring

/-- Concrete state for the bottom-crossing scenario of the spec: swinging
through the lowest point from the right (`theta = +0.05`) with `omega < 0`. -/
noncomputable def sBottom : SimulationState :=
  { theta := 0.05, omega := -10, alpha := 0, time := 0 }

/-- Concrete state for the turning-point scenario of the spec: on the right
side above the threshold (`theta = 0.5 > 0.1`) with small positive omega. -/
noncomputable def sTop : SimulationState :=
  { theta := 0.5, omega := 0.01, alpha := 0, time := 0 }

/-- At `theta = +0.05`, `omega = −10`, one RK4 step of size `DT = 0.016`
drives `theta` negative. -/
lemma sBottom_cross : bottomCross sBottom (updatePhysics sBottom INITIAL_PARAMS DT) := by
  have hclose := updatePhysics_theta_close sBottom INITIAL_PARAMS DT
    (by norm_num [INITIAL_PARAMS, GRAVITY]) (by norm_num [DT])
  rw [abs_le] at hclose
  refine Or.inl ⟨by norm_num [sBottom], ?_⟩
  have h1 : sBottom.theta + DT * sBottom.omega = -0.11 := by
    norm_num [sBottom, DT]
  have h2 : INITIAL_PARAMS.gravity / INITIAL_PARAMS.length * DT ^ 2 / 2
      = 0.0006272 := by
    norm_num [INITIAL_PARAMS, GRAVITY, DT]
  rw [h1, h2] at hclose
  linarith [hclose.2]

/-- Lower bound for the sine on the interval `[0.499, 0.501]`. -/
lemma sin_lb_half {x : ℝ} (h1 : (0.499 : ℝ) ≤ x) (h2 : x ≤ 0.501) :
    (0.45 : ℝ) ≤ Real.sin x := by
  have hx0 : (0 : ℝ) < x := by linarith
  have hx1 : x ≤ 1 := by linarith
  have hcube := Real.sin_gt_sub_cube hx0 hx1
  have hx3 : x ^ 3 ≤ 0.501 ^ 3 := by
    nlinarith [sq_nonneg x, sq_nonneg (x + 0.501)]
  nlinarith

/-- At `theta = 0.5 > 0.1`, `omega = +0.01`, one RK4 step of size `DT`
drives `omega` non-positive: a detected turning point. -/
lemma sTop_turn : topTurn sTop (updatePhysics sTop INITIAL_PARAMS DT) := by
  have hπ : (3 : ℝ) < Real.pi := Real.pi_gt_three
  have eθ : sTop.theta = 0.5 := rfl
  have eω : sTop.omega = 0.01 := rfl
  have eG : INITIAL_PARAMS.gravity / INITIAL_PARAMS.length = 4.9 := by
    norm_num [INITIAL_PARAMS, GRAVITY]
  have eDT : DT = 0.016 := rfl
  refine ⟨by norm_num [sTop], Or.inl ⟨by norm_num [sTop], ?_⟩⟩
  rw [updatePhysics_omega, eθ, eω, eG, eDT]
  -- name the four sine stage values and bound them
  have hs1u : Real.sin (0.5 : ℝ) ≤ 1 := Real.sin_le_one _
  have hs1l : (0.45 : ℝ) ≤ Real.sin (0.5 : ℝ) := sin_lb_half (by norm_num) (by norm_num)
  have hs2l : (0.45 : ℝ) ≤ Real.sin ((0.5 : ℝ) + 0.01 * 0.016 * 0.5) :=
    sin_lb_half (by norm_num) (by norm_num)
  have hs2u : Real.sin ((0.5 : ℝ) + 0.01 * 0.016 * 0.5) ≤ 1 := Real.sin_le_one _
  have hs3l : (0.45 : ℝ) ≤ Real.sin ((0.5 : ℝ) +
      (0.01 + -(4.9) * Real.sin 0.5 * 0.016 * 0.5) * 0.016 * 0.5) := by
    apply sin_lb_half
    · nlinarith
    · nlinarith
  have hs4l : (0.45 : ℝ) ≤ Real.sin ((0.5 : ℝ) +
      (0.01 + -(4.9) * Real.sin ((0.5 : ℝ) + 0.01 * 0.016 * 0.5) * 0.016 * 0.5) *
        0.016) := by
    apply sin_lb_half
    · nlinarith
    · nlinarith
  nlinarith

/-- Claim C6: While the mode is `PAUSE_AT_BOTTOM`, an integration step whose
pre-step and post-step `theta` differ in sign (inclusive of the post-step
`theta` landing exactly on zero, i.e. the source's zero-crossing test)
transitions the mode to `PAUSED`, snaps the published `theta` to exactly 0 and
ends the drain for that frame; a step without such a sign change keeps the
mode `PAUSE_AT_BOTTOM` and continues draining with the integrated state
unmodified. -/
theorem C6_pause_at_bottom_zero_cross (p : PhysicsParams) (n : ℕ) (acc : ℝ)
    (s : SimulationState) (hacc : DT ≤ acc) :
    (bottomCross s (updatePhysics s p DT) →
      drainLoop SimulationMode.PAUSE_AT_BOTTOM p (n + 1) acc s =
        (acc - DT, { updatePhysics s p DT with theta := 0 },
          SimulationMode.PAUSED)) ∧
    (¬ bottomCross s (updatePhysics s p DT) →
      drainLoop SimulationMode.PAUSE_AT_BOTTOM p (n + 1) acc s =
        drainLoop SimulationMode.PAUSE_AT_BOTTOM p n (acc - DT)
          (updatePhysics s p DT)) :=
  ⟨fun hcross => drainLoop_bottom_stop p n acc s hacc hcross,
   fun hcross => drainLoop_bottom_go p n acc s hacc hcross⟩

/-- Witness for C6 at the spec's scenario: from `theta = +0.05`, `omega = −10`
one step drives `theta` negative and the drain ends with mode `PAUSED` and
`theta` exactly 0. -/
theorem C6_pause_at_bottom_zero_cross_witness :
    drainLoop SimulationMode.PAUSE_AT_BOTTOM INITIAL_PARAMS 1 DT sBottom =
      (DT - DT, { updatePhysics sBottom INITIAL_PARAMS DT with theta := 0 },
        SimulationMode.PAUSED) :=
  (C6_pause_at_bottom_zero_cross INITIAL_PARAMS 0 DT sBottom le_rfl).1
    sBottom_cross

/-- Claim C7: While the mode is `PAUSE_AT_TOP`, the stop is evaluated only for
steps whose pre-step `theta` exceeds the 0.1 rad threshold: a step whose
`omega` changes sign (or lands exactly on zero from a nonzero value, i.e. the
source's turning-point test) with `theta > 0.1` transitions the mode to
`PAUSED` and snaps the published `omega` to exactly 0; a step with pre-step
`theta ≤ 0.1` never triggers a pause, whatever `omega` does, and a step whose
turning-point test fails keeps draining with the mode unchanged. -/
theorem C7_pause_at_top_turning_point (p : PhysicsParams) (n : ℕ) (acc : ℝ)
    (s : SimulationState) (hacc : DT ≤ acc) :
    (topTurn s (updatePhysics s p DT) →
      drainLoop SimulationMode.PAUSE_AT_TOP p (n + 1) acc s =
        (acc - DT, { updatePhysics s p DT with omega := 0 },
          SimulationMode.PAUSED)) ∧
    (s.theta ≤ 0.1 →
      drainLoop SimulationMode.PAUSE_AT_TOP p (n + 1) acc s =
        drainLoop SimulationMode.PAUSE_AT_TOP p n (acc - DT)
          (updatePhysics s p DT)) ∧
    (¬ topTurn s (updatePhysics s p DT) →
      drainLoop SimulationMode.PAUSE_AT_TOP p (n + 1) acc s =
        drainLoop SimulationMode.PAUSE_AT_TOP p n (acc - DT)
          (updatePhysics s p DT)) :=
  ⟨fun hturn => drainLoop_top_stop p n acc s hacc hturn,
   fun hlow => drainLoop_top_go p n acc s hacc
     (fun hturn => absurd hturn.1 (not_lt.mpr hlow)),
   fun hturn => drainLoop_top_go p n acc s hacc hturn⟩

/-- Witness for C7 at the spec's scenario: from `theta = 0.5 > 0.1`,
`omega = +0.01` one step drives `omega` non-positive and the drain ends with
mode `PAUSED` and `omega` exactly 0. -/
theorem C7_pause_at_top_turning_point_witness :
    drainLoop SimulationMode.PAUSE_AT_TOP INITIAL_PARAMS 1 DT sTop =
      (DT - DT, { updatePhysics sTop INITIAL_PARAMS DT with omega := 0 },
        SimulationMode.PAUSED) :=
  (C7_pause_at_top_turning_point INITIAL_PARAMS 0 DT sTop le_rfl).1 sTop_turn

/-- After one step from `sBottom`, `theta` lands in `(−π, 0)`. -/
lemma sBottom_theta_bounds :
    (updatePhysics sBottom INITIAL_PARAMS DT).theta < 0 ∧
    -Real.pi < (updatePhysics sBottom INITIAL_PARAMS DT).theta := by
  have hclose := updatePhysics_theta_close sBottom INITIAL_PARAMS DT
    (by norm_num [INITIAL_PARAMS, GRAVITY]) (by norm_num [DT])
  rw [abs_le] at hclose
  have h1 : sBottom.theta + DT * sBottom.omega = -0.11 := by
    norm_num [sBottom, DT]
  have h2 : INITIAL_PARAMS.gravity / INITIAL_PARAMS.length * DT ^ 2 / 2
      = 0.0006272 := by
    norm_num [INITIAL_PARAMS, GRAVITY, DT]
  rw [h1, h2] at hclose
  have hπ := Real.pi_gt_three
  exact ⟨by linarith [hclose.2], by linarith [hclose.1]⟩

/-- Counterexample to C5 as stated, in both of its published-state families.
First, with the repository's initial parameters (`initialAngle = 30°`,
`gravity = 9.8`, `length = 2`) the re-initialized state has `alpha = 0` while
`−(g/L)·sin θ = −2.45`.  Second, the state published by the
`PAUSE_AT_BOTTOM` snap (one drain step from `theta = +0.05`, `omega = −10`)
has `theta = 0` but keeps the stale pre-snap `alpha`, which differs from the
consistent value `−(g/L)·sin 0 = 0`. -/
theorem C5_alpha_consistent_counterexample :
    ((initializeState INITIAL_PARAMS).alpha = 0 ∧
      -(INITIAL_PARAMS.gravity / INITIAL_PARAMS.length) *
          Real.sin ((initializeState INITIAL_PARAMS).theta) = -2.45 ∧
      (0 : ℝ) ≠ -2.45) ∧
    ((drainLoop SimulationMode.PAUSE_AT_BOTTOM INITIAL_PARAMS 1 DT
        sBottom).2.1.theta = 0 ∧
      (drainLoop SimulationMode.PAUSE_AT_BOTTOM INITIAL_PARAMS 1 DT
          sBottom).2.1.alpha ≠
        -(INITIAL_PARAMS.gravity / INITIAL_PARAMS.length) *
          Real.sin ((drainLoop SimulationMode.PAUSE_AT_BOTTOM INITIAL_PARAMS 1
            DT sBottom).2.1.theta)) := by
  constructor
  · refine ⟨rfl, ?_, by norm_num⟩
    have harg : (initializeState INITIAL_PARAMS).theta = Real.pi / 6 := by
      simp only [initializeState, INITIAL_PARAMS]
      ring
    rw [harg, Real.sin_pi_div_six]
    simp only [INITIAL_PARAMS, GRAVITY]
    norm_num
  · have hsnap := drainLoop_bottom_stop INITIAL_PARAMS 0 DT sBottom le_rfl
      sBottom_cross
    rw [hsnap]
    have hth0 : ((DT - DT,
        ({ updatePhysics sBottom INITIAL_PARAMS DT with theta := 0 } :
          SimulationState),
        SimulationMode.PAUSED).2.1).theta = 0 := rfl
    refine ⟨hth0, ?_⟩
    rw [hth0, Real.sin_zero, mul_zero]
    have halpha : ((DT - DT,
        ({ updatePhysics sBottom INITIAL_PARAMS DT with theta := 0 } :
          SimulationState),
        SimulationMode.PAUSED).2.1).alpha =
        -(INITIAL_PARAMS.gravity / INITIAL_PARAMS.length) *
          Real.sin ((updatePhysics sBottom INITIAL_PARAMS DT).theta) := by
      simp only [updatePhysics, evaluateDerivatives]
    rw [halpha]
    have hsin : Real.sin ((updatePhysics sBottom INITIAL_PARAMS DT).theta) < 0 :=
      Real.sin_neg_of_neg_of_neg_pi_lt sBottom_theta_bounds.1
        sBottom_theta_bounds.2
    have hG : (0 : ℝ) < INITIAL_PARAMS.gravity / INITIAL_PARAMS.length := by
      norm_num [INITIAL_PARAMS, GRAVITY]
    have hpos : 0 < -(INITIAL_PARAMS.gravity / INITIAL_PARAMS.length) *
        Real.sin ((updatePhysics sBottom INITIAL_PARAMS DT).theta) := by
      nlinarith
    exact ne_of_gt hpos

/-- With enough fuel, a drain that does not fire a stop condition (its
returned mode equals the input mode) ends with the accumulator strictly below
`DT`. -/
lemma drainLoop_acc_lt (m : SimulationMode) (p : PhysicsParams) :
    ∀ (n : ℕ) (acc : ℝ) (s : SimulationState), acc < n * DT →
      (drainLoop m p n acc s).2.2 = m → (drainLoop m p n acc s).1 < DT := by
  intro n
  induction n with
  | zero =>
    intro acc s hfuel _
    simp only [Nat.cast_zero, zero_mul] at hfuel
    calc (drainLoop m p 0 acc s).1 = acc := rfl
      _ < DT := lt_trans hfuel DT_pos
  | succ n ih =>
    intro acc s hfuel hmode
    by_cases hacc : DT ≤ acc
    · have hrec : acc - DT < n * DT := by
        push_cast at hfuel ⊢
        linarith
      by_cases hbot : m = SimulationMode.PAUSE_AT_BOTTOM ∧
          bottomCross s (updatePhysics s p DT)
      · exfalso
        have : (drainLoop m p (n + 1) acc s).2.2 = SimulationMode.PAUSED := by
          simp only [drainLoop, if_pos hacc]
          rw [if_pos hbot]
        rw [hmode] at this
        rw [this] at hbot
        cases hbot.1
      · by_cases htop : m = SimulationMode.PAUSE_AT_TOP ∧
            topTurn s (updatePhysics s p DT)
        · exfalso
          have : (drainLoop m p (n + 1) acc s).2.2 = SimulationMode.PAUSED := by
            simp only [drainLoop, if_pos hacc]
            rw [if_neg hbot, if_pos htop]
          rw [hmode] at this
          rw [this] at htop
          cases htop.1
        · have hstep : drainLoop m p (n + 1) acc s =
              drainLoop m p n (acc - DT) (updatePhysics s p DT) := by
            simp only [drainLoop, if_pos hacc]
            rw [if_neg hbot, if_neg htop]
          rw [hstep] at hmode ⊢
          exact ih (acc - DT) (updatePhysics s p DT) hrec hmode
    · rw [drainLoop_low m p n acc s hacc] at hmode ⊢
      exact not_le.mp hacc

/-- The fuel `⌈acc/DT⌉ + 1` that `animate` passes to the drain loop is always
sufficient. -/
lemma fuel_sufficient (acc : ℝ) : acc < ((Nat.ceil (acc / DT) + 1 : ℕ) : ℝ) * DT := by
  have h1 : acc / DT ≤ (Nat.ceil (acc / DT) : ℝ) := Nat.le_ceil _
  have h2 : (Nat.ceil (acc / DT) : ℝ) < ((Nat.ceil (acc / DT) + 1 : ℕ) : ℝ) := by
    push_cast
    linarith
  have h3 : acc / DT < ((Nat.ceil (acc / DT) + 1 : ℕ) : ℝ) := lt_of_le_of_lt h1 h2
  calc acc = acc / DT * DT := by
        rw [div_mul_cancel₀]
        exact ne_of_gt DT_pos
    _ < ((Nat.ceil (acc / DT) + 1 : ℕ) : ℝ) * DT :=
        mul_lt_mul_of_pos_right h3 DT_pos

/-- Claim C4, amended: On a frame call in a non-`PAUSED` mode: (i) whenever the
drain loop ran to completion without a stop condition firing (the mode after
the frame is unchanged), the accumulator ends strictly below `DT`; (ii) when a
stop condition fired (the mode after the frame is `PAUSED`), the leftover
accumulated time — which may still be `≥ DT` at the end of the frame, contrary
to the original claim — is discarded on the very next frame call before any
integration: that call returns the same state with accumulator 0.  -/
theorem C4_accumulator_after_drain (m : SimulationMode) (p : PhysicsParams)
    (s : SimulationState) (acc t0 t : ℝ) (hm : m ≠ SimulationMode.PAUSED) :
    ((animate m p s acc (some t0) t).2.2.2 = m →
      (animate m p s acc (some t0) t).2.1 < DT) ∧
    ((animate m p s acc (some t0) t).2.2.2 = SimulationMode.PAUSED →
      ∀ t' : ℝ,
        animate (animate m p s acc (some t0) t).2.2.2 p
            (animate m p s acc (some t0) t).1
            (animate m p s acc (some t0) t).2.1
            (animate m p s acc (some t0) t).2.2.1 t' =
          ((animate m p s acc (some t0) t).1, 0, some t',
            SimulationMode.PAUSED)) := by
  constructor
  · intro hmode
    rw [animate_some m p s acc t0 t hm] at hmode ⊢
    exact drainLoop_acc_lt m p _ _ s (fuel_sufficient _) hmode
  · intro hmode t'
    rw [hmode]
    rw [animate_some m p s acc t0 t hm]
    exact animate_paused p _ _ t t'

/-- Witness for C4 (amended): a `RUNNING` frame with an empty accumulator and
zero delta performs no step, keeps mode `RUNNING` and ends below `DT`; part
(ii) holds vacuously-free as the implication is applied to the paused follow-up
of a stopped bottom frame below. -/
theorem C4_accumulator_after_drain_witness :
    ((animate SimulationMode.RUNNING INITIAL_PARAMS INITIAL_STATE 0
        (some 0) 0).2.2.2 = SimulationMode.RUNNING →
      (animate SimulationMode.RUNNING INITIAL_PARAMS INITIAL_STATE 0
        (some 0) 0).2.1 < DT) ∧
    ((animate SimulationMode.RUNNING INITIAL_PARAMS INITIAL_STATE 0
        (some 0) 0).2.2.2 = SimulationMode.PAUSED →
      ∀ t' : ℝ,
        animate (animate SimulationMode.RUNNING INITIAL_PARAMS INITIAL_STATE 0
              (some 0) 0).2.2.2 INITIAL_PARAMS
            (animate SimulationMode.RUNNING INITIAL_PARAMS INITIAL_STATE 0
              (some 0) 0).1
            (animate SimulationMode.RUNNING INITIAL_PARAMS INITIAL_STATE 0
              (some 0) 0).2.1
            (animate SimulationMode.RUNNING INITIAL_PARAMS INITIAL_STATE 0
              (some 0) 0).2.2.1 t' =
          ((animate SimulationMode.RUNNING INITIAL_PARAMS INITIAL_STATE 0
              (some 0) 0).1, 0, some t', SimulationMode.PAUSED)) :=
  C4_accumulator_after_drain SimulationMode.RUNNING INITIAL_PARAMS
    INITIAL_STATE 0 0 0 (by decide)

/-- Counterexample to C4 as stated: a `PAUSE_AT_BOTTOM` frame that enters the
drain with `0.04` s accumulated fires the stop on its first step and ends the
frame with `0.024 ≥ DT` still in the accumulator — the leftover is not
discarded at the moment of pausing (it is discarded only on the next frame). -/
theorem C4_accumulator_counterexample :
    (animate SimulationMode.PAUSE_AT_BOTTOM INITIAL_PARAMS sBottom 0.04
        (some 0) 0).2.2.2 = SimulationMode.PAUSED ∧
    (animate SimulationMode.PAUSE_AT_BOTTOM INITIAL_PARAMS sBottom 0.04
        (some 0) 0).2.1 = 0.024 ∧
    ¬ ((0.024 : ℝ) < DT) := by
  have hft : (0.04 : ℝ) + frameTime 0 0 = 0.04 := by
    norm_num [frameTime]
  have hstop := drainLoop_bottom_stop INITIAL_PARAMS
    (Nat.ceil ((0.04 : ℝ) / DT)) 0.04 sBottom (by norm_num [DT]) sBottom_cross
  rw [animate_some _ _ _ _ _ _ (by decide), hft, hstop]
  refine ⟨rfl, by norm_num [DT], by norm_num [DT]⟩

/-- AM-GM for the AGM update: the geometric mean is below the arithmetic
mean. -/
lemma agm_am_ge_gm {a b : ℝ} (ha : 0 ≤ a) (hb : 0 ≤ b) :
    Real.sqrt (a * b) ≤ 0.5 * (a + b) := by
  have h : a * b ≤ (0.5 * (a + b)) ^ 2 := by nlinarith [sq_nonneg (a - b)]
  calc Real.sqrt (a * b) ≤ Real.sqrt ((0.5 * (a + b)) ^ 2) := Real.sqrt_le_sqrt h
    _ = 0.5 * (a + b) := Real.sqrt_sq (by positivity)

/-- The AGM loop's result stays inside the initial bracket `[b, a]`. -/
lemma agmLoop_bounds : ∀ (n : ℕ) (a b : ℝ), 0 < b → b ≤ a →
    b ≤ agmLoop n a b ∧ agmLoop n a b ≤ a := by
  intro n
  induction n with
  | zero => intro a b _ hba; exact ⟨hba, le_rfl⟩
  | succ n ih =>
    intro a b hb hba
    by_cases hgap : |a - b| < 1e-9
    · simp only [agmLoop, if_pos hgap]
      exact ⟨hba, le_rfl⟩
    · simp only [agmLoop, if_neg hgap]
      have hb' : 0 < Real.sqrt (a * b) :=
        Real.sqrt_pos.mpr (mul_pos (lt_of_lt_of_le hb hba) hb)
      have hba' : Real.sqrt (a * b) ≤ 0.5 * (a + b) :=
        agm_am_ge_gm (le_of_lt (lt_of_lt_of_le hb hba)) (le_of_lt hb)
      obtain ⟨hl, hr⟩ := ih (0.5 * (a + b)) (Real.sqrt (a * b)) hb' hba'
      constructor
      · calc b = Real.sqrt (b * b) := (Real.sqrt_mul_self (le_of_lt hb)).symm
          _ ≤ Real.sqrt (a * b) :=
            Real.sqrt_le_sqrt (mul_le_mul_of_nonneg_right hba (le_of_lt hb))
          _ ≤ agmLoop n (0.5 * (a + b)) (Real.sqrt (a * b)) := hl
      · calc agmLoop n (0.5 * (a + b)) (Real.sqrt (a * b)) ≤ 0.5 * (a + b) := hr
          _ ≤ a := by linarith

/-- The AGM update shrinks the gap monotonically: a pair with the larger
components and the smaller gap keeps the smaller gap after one update. -/
lemma agm_gap_mono {a b a' b' : ℝ} (hb : 0 < b) (hba : b ≤ a) (hb' : 0 < b')
    (hba' : b' ≤ a') (haa : a ≤ a') (hbb : b ≤ b') (hgap : a' - b' ≤ a - b) :
    0.5 * (a' + b') - Real.sqrt (a' * b') ≤ 0.5 * (a + b) - Real.sqrt (a * b) := by
  have ha : (0 : ℝ) < a := lt_of_lt_of_le hb hba
  have ha' : (0 : ℝ) < a' := lt_of_lt_of_le hb' hba'
  have hu2 : Real.sqrt a ^ 2 = a := Real.sq_sqrt (le_of_lt ha)
  have hv2 : Real.sqrt b ^ 2 = b := Real.sq_sqrt (le_of_lt hb)
  have hu2' : Real.sqrt a' ^ 2 = a' := Real.sq_sqrt (le_of_lt ha')
  have hv2' : Real.sqrt b' ^ 2 = b' := Real.sq_sqrt (le_of_lt hb')
  have hmul : Real.sqrt (a * b) = Real.sqrt a * Real.sqrt b :=
    Real.sqrt_mul (le_of_lt ha) b
  have hmul' : Real.sqrt (a' * b') = Real.sqrt a' * Real.sqrt b' :=
    Real.sqrt_mul (le_of_lt ha') b'
  have hv0 : 0 < Real.sqrt b := Real.sqrt_pos.mpr hb
  have hv0' : 0 < Real.sqrt b' := Real.sqrt_pos.mpr hb'
  have huv : Real.sqrt b ≤ Real.sqrt a := Real.sqrt_le_sqrt hba
  have huv' : Real.sqrt b' ≤ Real.sqrt a' := Real.sqrt_le_sqrt hba'
  have hua : Real.sqrt a ≤ Real.sqrt a' := Real.sqrt_le_sqrt haa
  have hvb : Real.sqrt b ≤ Real.sqrt b' := Real.sqrt_le_sqrt hbb
  set u := Real.sqrt a
  set v := Real.sqrt b
  set w := Real.sqrt a'
  set z := Real.sqrt b'
  have hdiff : (w - z) * (w + z) ≤ (u - v) * (u + v) := by nlinarith
  have hstep : (w - z) * (u + v) ≤ (w - z) * (w + z) :=
    mul_le_mul_of_nonneg_left (by linarith) (by linarith)
  have hd : w - z ≤ u - v := by
    have h3 : (w - z) * (u + v) ≤ (u - v) * (u + v) := le_trans hstep hdiff
    have hpos : (0 : ℝ) < u + v := by linarith
    exact le_of_mul_le_mul_right h3 hpos
  rw [hmul, hmul']
  nlinarith [mul_self_le_mul_self (by linarith : (0:ℝ) ≤ w - z) hd]

/-- Monotonicity of the truncated, early-stopping AGM loop: componentwise
larger brackets with a smaller gap give a result at least as large. -/
lemma agmLoop_mono : ∀ (n : ℕ) (a b a' b' : ℝ), 0 < b → b ≤ a → 0 < b' →
    b' ≤ a' → a ≤ a' → b ≤ b' → a' - b' ≤ a - b →
    agmLoop n a b ≤ agmLoop n a' b' := by
  intro n
  induction n with
  | zero => intro a b a' b' _ _ _ _ haa _ _; exact haa
  | succ n ih =>
    intro a b a' b' hb hba hb' hba' haa hbb hgap
    have habs : |a - b| = a - b := abs_of_nonneg (by linarith)
    have habs' : |a' - b'| = a' - b' := abs_of_nonneg (by linarith)
    by_cases h1 : |a - b| < 1e-9
    · by_cases h2 : |a' - b'| < 1e-9
      · simp only [agmLoop, if_pos h1, if_pos h2]
        exact haa
      · exfalso
        rw [habs] at h1
        rw [habs'] at h2
        push_neg at h2
        linarith
    · have hb2 : 0 < Real.sqrt (a * b) :=
        Real.sqrt_pos.mpr (mul_pos (lt_of_lt_of_le hb hba) hb)
      have hba2 : Real.sqrt (a * b) ≤ 0.5 * (a + b) :=
        agm_am_ge_gm (by linarith) (le_of_lt hb)
      by_cases h2 : |a' - b'| < 1e-9
      · simp only [agmLoop, if_neg h1, if_pos h2]
        calc agmLoop n (0.5 * (a + b)) (Real.sqrt (a * b)) ≤ 0.5 * (a + b) :=
            (agmLoop_bounds n _ _ hb2 hba2).2
          _ ≤ a := by linarith
          _ ≤ a' := haa
      · simp only [agmLoop, if_neg h1, if_neg h2]
        have hb2' : 0 < Real.sqrt (a' * b') :=
          Real.sqrt_pos.mpr (mul_pos (lt_of_lt_of_le hb' hba') hb')
        have hba2' : Real.sqrt (a' * b') ≤ 0.5 * (a' + b') :=
          agm_am_ge_gm (by linarith) (le_of_lt hb')
        apply ih _ _ _ _ hb2 hba2 hb2' hba2' (by linarith)
        · exact Real.sqrt_le_sqrt
            (mul_le_mul haa hbb (le_of_lt hb) (by linarith))
        · exact agm_gap_mono hb hba hb' hba' haa hbb hgap

/-- The AGM loop stops immediately when the initial gap is already below the
tolerance. -/
lemma agmLoop_early (n : ℕ) (a b : ℝ) (h : |a - b| < 1e-9) :
    agmLoop (n + 1) a b = a := by
  simp only [agmLoop, if_pos h]

/-- For amplitudes up to `0.002°` the initial AGM gap `1 − cos(θ0/2)` is
already below the `1e-9` tolerance. -/
lemma tiny_angle_gap (d : ℝ) (hd0 : 0 < d) (hd : d ≤ 0.002) :
    |1 - Real.cos (d * (Real.pi / 180) / 2)| < 1e-9 := by
  have hπu : Real.pi < 3.15 := Real.pi_lt_d2
  have hπl : (0 : ℝ) < Real.pi := Real.pi_pos
  have hx0 : 0 < d * (Real.pi / 180) / 2 := by positivity
  have hxu : d * (Real.pi / 180) / 2 ≤ 2e-5 := by nlinarith
  have hcos1 : Real.cos (d * (Real.pi / 180) / 2) ≤ 1 := Real.cos_le_one _
  have hcoslb : 1 - (d * (Real.pi / 180) / 2) ^ 2 / 2 ≤
      Real.cos (d * (Real.pi / 180) / 2) := Real.one_sub_sq_div_two_le_cos
  rw [abs_of_nonneg (by linarith)]
  nlinarith

/-- For tiny amplitudes (0 < deg ≤ 0.002) the whole period computation
collapses to the small-angle value: the AGM loop stops at `a = 1`. -/
lemma tiny_angle_period (L g d : ℝ) (hd0 : 0 < d) (hd : d ≤ 0.002) :
    calculateExactPeriod L g d = 2 * Real.pi * Real.sqrt (L / g) := by
  simp only [calculateExactPeriod, if_neg (ne_of_gt hd0)]
  rw [show (10 : ℕ) = 9 + 1 from rfl,
    agmLoop_early 9 1 (Real.cos (d * (Real.pi / 180) / 2))
      (tiny_angle_gap d hd0 hd), div_one]

/-- Claim C9, amended: For fixed positive length and gravity,
`calculateExactPeriod` is monotonically nondecreasing in the amplitude on
`(0°, 90°)` — not strictly increasing, because the `1e-9` early-stop
tolerance makes it constant on tiny amplitudes (see the counterexample) —
and on that interval its value is at least the small-angle approximation
`2π·sqrt(L/g)`, with which it coincides at amplitude 0. -/
theorem C9_period_monotone_ge_small_angle (L g θ θ' : ℝ) (hL : 0 < L)
    (hg : 0 < g) (hθ0 : 0 < θ) (hθθ : θ ≤ θ') (hθ90 : θ' < 90) :
    calculateExactPeriod L g θ ≤ calculateExactPeriod L g θ' ∧
    2 * Real.pi * Real.sqrt (L / g) ≤ calculateExactPeriod L g θ ∧
    calculateExactPeriod L g 0 = 2 * Real.pi * Real.sqrt (L / g) := by
  have hπ : (0 : ℝ) < Real.pi := Real.pi_pos
  have hπ4 : Real.pi < 4 := Real.pi_lt_four
  have hx0 : (0 : ℝ) ≤ θ * (Real.pi / 180) / 2 := by positivity
  have hx0' : (0 : ℝ) < θ' * (Real.pi / 180) / 2 := by
    have : (0 : ℝ) < θ' := lt_of_lt_of_le hθ0 hθθ
    positivity
  have hxx : θ * (Real.pi / 180) / 2 ≤ θ' * (Real.pi / 180) / 2 := by
    have : θ * (Real.pi / 180) ≤ θ' * (Real.pi / 180) := by
      apply mul_le_mul_of_nonneg_right hθθ
      positivity
    linarith
  have hx'half : θ' * (Real.pi / 180) / 2 < Real.pi / 2 := by nlinarith
  have hx'pi : θ' * (Real.pi / 180) / 2 ≤ Real.pi := by linarith
  have hcos_mono : Real.cos (θ' * (Real.pi / 180) / 2) ≤
      Real.cos (θ * (Real.pi / 180) / 2) :=
    Real.cos_le_cos_of_nonneg_of_le_pi hx0 hx'pi hxx
  have hcos_pos' : 0 < Real.cos (θ' * (Real.pi / 180) / 2) :=
    Real.cos_pos_of_mem_Ioo ⟨by linarith, hx'half⟩
  have hcos_pos : 0 < Real.cos (θ * (Real.pi / 180) / 2) :=
    lt_of_lt_of_le hcos_pos' hcos_mono
  have hcos_le1 : Real.cos (θ * (Real.pi / 180) / 2) ≤ 1 := Real.cos_le_one _
  have hcos_le1' : Real.cos (θ' * (Real.pi / 180) / 2) ≤ 1 := Real.cos_le_one _
  have hagm_bounds := agmLoop_bounds 10 1
    (Real.cos (θ * (Real.pi / 180) / 2)) hcos_pos hcos_le1
  have hagm_bounds' := agmLoop_bounds 10 1
    (Real.cos (θ' * (Real.pi / 180) / 2)) hcos_pos' hcos_le1'
  have hagm_pos : 0 < agmLoop 10 1 (Real.cos (θ * (Real.pi / 180) / 2)) :=
    lt_of_lt_of_le hcos_pos hagm_bounds.1
  have hagm_pos' : 0 < agmLoop 10 1 (Real.cos (θ' * (Real.pi / 180) / 2)) :=
    lt_of_lt_of_le hcos_pos' hagm_bounds'.1
  have hagm_mono : agmLoop 10 1 (Real.cos (θ' * (Real.pi / 180) / 2)) ≤
      agmLoop 10 1 (Real.cos (θ * (Real.pi / 180) / 2)) :=
    agmLoop_mono 10 1 (Real.cos (θ' * (Real.pi / 180) / 2)) 1
      (Real.cos (θ * (Real.pi / 180) / 2)) hcos_pos' hcos_le1' hcos_pos
      hcos_le1 le_rfl hcos_mono (by linarith)
  have hC : (0 : ℝ) ≤ 2 * Real.pi * Real.sqrt (L / g) := by positivity
  have hne : θ ≠ 0 := ne_of_gt hθ0
  have hne' : θ' ≠ 0 := ne_of_gt (lt_of_lt_of_le hθ0 hθθ)
  refine ⟨?_, ?_, ?_⟩
  · simp only [calculateExactPeriod, if_neg hne, if_neg hne']
    exact div_le_div_of_nonneg_left hC hagm_pos' hagm_mono
  · simp only [calculateExactPeriod, if_neg hne]
    calc 2 * Real.pi * Real.sqrt (L / g)
        = 2 * Real.pi * Real.sqrt (L / g) / 1 := (div_one _).symm
      _ ≤ 2 * Real.pi * Real.sqrt (L / g) /
            agmLoop 10 1 (Real.cos (θ * (Real.pi / 180) / 2)) :=
          div_le_div_of_nonneg_left hC hagm_pos hagm_bounds.2
  · simp [calculateExactPeriod]

/-- Witness for C9 (amended) at `L = 2`, `g = 9.8`, amplitudes 30° and 60°. -/
theorem C9_period_monotone_ge_small_angle_witness :
    calculateExactPeriod 2 9.8 30 ≤ calculateExactPeriod 2 9.8 60 ∧
    2 * Real.pi * Real.sqrt (2 / 9.8) ≤ calculateExactPeriod 2 9.8 30 ∧
    calculateExactPeriod 2 9.8 0 = 2 * Real.pi * Real.sqrt (2 / 9.8) :=
  C9_period_monotone_ge_small_angle 2 9.8 30 60 (by norm_num) (by norm_num)
    (by norm_num) (by norm_num) (by norm_num)

/-- Counterexample to C9 as stated: the period is NOT strictly increasing on
`(0°, 90°)`.  For the amplitudes `0.001°` and `0.002°` the initial AGM gap
`1 − cos(θ0/2)` is below the `1e-9` stop tolerance, the loop exits at
`a = 1` in both cases, and the two periods are exactly equal. -/
theorem C9_period_strict_counterexample :
    calculateExactPeriod 2 9.8 0.001 = calculateExactPeriod 2 9.8 0.002 ∧
    (0 : ℝ) < 0.001 ∧ (0.001 : ℝ) < 0.002 ∧ (0.002 : ℝ) < 90 := by
  refine ⟨?_, by norm_num, by norm_num, by norm_num⟩
  rw [tiny_angle_period 2 9.8 0.001 (by norm_num) (by norm_num),
    tiny_angle_period 2 9.8 0.002 (by norm_num) (by norm_num)]

end Pendulum
